import Mathlib

/-!
Shallow embedding of the token-refresh core of `src/app.js`:

* the global Instagram/Facebook token store
  (`getGlobalInstagramFacebookToken` / `setGlobalInstagramFacebookToken`,
  app.js lines 18-39, table `instagramFacebook_tokens` with a `SERIAL` id),
* the per-brand refresh coordinator `refreshBrandToken` (app.js lines 41-108)
  together with the process-wide `refreshLocks` map (line 16), modelled as a
  small-step machine over the JavaScript event loop: each atomic step runs a
  task from one `await` point to the next, which is exactly the granularity at
  which Node interleaves async functions,
* the delivery operation `sendPostToN8N` (app.js lines 685-759), and
* the due-post selection of the dispatch loop (app.js lines 761-776).

Strings model JavaScript strings; JavaScript truthiness (where `undefined`,
`null` and `""` are falsy, and the number `0` is falsy) is made explicit with
`truthyStr` / `truthyNat`.  Timestamps are epoch milliseconds (`Date.now()`),
and `Date.toISOString()` is modelled by `toISOString` below, the standard
civil-from-days rendering of an epoch-millisecond value.
-/

/-- Truthiness of an optional JavaScript string: `undefined`/`null` and the
empty string are falsy, every other string is truthy. -/
def truthyStr : Option String → Bool
  | none => false
  | some s => s ≠ ""

/-- Truthiness of an optional JavaScript number restricted to naturals:
`undefined`/`null` and `0` are falsy. -/
def truthyNat : Option Nat → Bool
  | none => false
  | some n => n ≠ 0

/-- JavaScript `a || b` on optional string fields: yields `a` when `a` is
truthy, otherwise `b`. -/
def jsOr (a b : Option String) : Option String := if truthyStr a then a else b

/-- Left-pad the decimal rendering of `n` with zeroes to width 2. -/
def pad2 (n : Nat) : String := if n < 10 then "0" ++ toString n else toString n

/-- Left-pad the decimal rendering of `n` with zeroes to width 3. -/
def pad3 (n : Nat) : String :=
  if n < 10 then "00" ++ toString n
  else if n < 100 then "0" ++ toString n
  else toString n

/-- Left-pad the decimal rendering of `n` with zeroes to width 4. -/
def pad4 (n : Nat) : String :=
  if n < 10 then "000" ++ toString n
  else if n < 100 then "00" ++ toString n
  else if n < 1000 then "0" ++ toString n
  else toString n

/-- Civil date (year, month, day) of a day count since 1970-01-01, by the
standard Gregorian era decomposition. -/
def civilFromDays (days : Nat) : Nat × Nat × Nat :=
  let z := days + 719468
  let era := z / 146097
  let doe := z % 146097
  let yoe := (doe - doe / 1460 + doe / 36524 - doe / 146096) / 365
  let doy := doe - (365 * yoe + yoe / 4 - yoe / 100)
  let mp := (5 * doy + 2) / 153
  let d := doy - (153 * mp + 2) / 5 + 1
  let m := if mp < 10 then mp + 3 else mp - 9
  let y := yoe + era * 400 + (if m ≤ 2 then 1 else 0)
  (y, m, d)

/-- Model of JavaScript `new Date(ms).toISOString()` for an epoch-millisecond
value: renders `YYYY-MM-DDTHH:MM:SS.mmmZ`. -/
def toISOString (ms : Nat) : String :=
  let days := ms / 86400000
  let msOfDay := ms % 86400000
  let (y, m, d) := civilFromDays days
  pad4 y ++ "-" ++ pad2 m ++ "-" ++ pad2 d ++ "T" ++
    pad2 (msOfDay / 3600000) ++ ":" ++ pad2 (msOfDay % 3600000 / 60000) ++ ":" ++
    pad2 (msOfDay % 60000 / 1000) ++ "." ++ pad3 (ms % 1000) ++ "Z"

/-! ## Global token store (app.js lines 18-39)

The Prisma table `instagramFacebook_tokens` has a `SERIAL` primary key, so the
fresh table starts its id sequence at 1 and each `create` consumes the next
sequence value.  `findFirst` (no `orderBy`) returns the first stored row. -/

/-- One row of the `instagramFacebook_tokens` table. -/
structure TokenRow where
  id : Nat
  token : String
deriving DecidableEq, Repr

/-- The `instagramFacebook_tokens` table plus its `SERIAL` id sequence. -/
structure TokenStore where
  rows : List TokenRow
  nextId : Nat
deriving DecidableEq, Repr

/-- The freshly migrated table: no rows, sequence at 1. -/
def emptyTokenStore : TokenStore := { rows := [], nextId := 1 }

/-- Model of `getGlobalInstagramFacebookToken` (app.js lines 18-26):
`prisma.InstagramFacebookToken.findFirst()`, returning the first row's token
or `null` when the table is empty. -/
def getGlobalInstagramFacebookToken (s : TokenStore) : Option String :=
  s.rows.head?.map (·.token)

/-- Model of `setGlobalInstagramFacebookToken` (app.js lines 28-39):
`upsert` with `where: { id: 1 }` — update the token of the id-1 row when one
exists, otherwise insert a new row whose id is drawn from the serial
sequence. -/
def setGlobalInstagramFacebookToken (s : TokenStore) (token : String) : TokenStore :=
  if s.rows.any (fun r => r.id == 1) then
    { s with rows := s.rows.map (fun r => if r.id == 1 then { r with token := token } else r) }
  else
    { rows := s.rows ++ [{ id := s.nextId, token := token }], nextId := s.nextId + 1 }

/-! ## Brands and credentials (app.js lines 41-55) -/

/-- The credential fields `refreshBrandToken` reads or writes.  The stored
JSON blob is opaque; these are the keys lines 46-48, 59, 89 and 91 touch. -/
structure Creds where
  app_id : Option String
  appId : Option String
  client_id : Option String
  clientId : Option String
  app_secret : Option String
  appSecret : Option String
  client_secret : Option String
  clientSecret : Option String
  access_token : Option String
  expires_at : Option String
deriving DecidableEq, Repr

/-- The two brand fields `refreshBrandToken` selects between (line 42-43). -/
structure Brand where
  id : Nat
  instagramCredentials : Option Creds
  facebookCredentials : Option Creds
deriving DecidableEq, Repr

/-- Line 42: `provider === 'facebook' ? 'facebookCredentials' :
'instagramCredentials'`, followed by the `brand[credsKey]` read of line 43. -/
def brandCreds (brand : Brand) (provider : String) : Option Creds :=
  if provider = "facebook" then brand.facebookCredentials else brand.instagramCredentials

/-- The default value of the `provider` parameter (line 41). -/
def refreshDefaultProvider : String := "instagram"

/-- Line 47: `creds.app_id || creds.appId || creds.client_id || creds.clientId`. -/
def credsAppId (creds : Creds) : Option String :=
  jsOr creds.app_id (jsOr creds.appId (jsOr creds.client_id creds.clientId))

/-- Line 48: `creds.app_secret || creds.appSecret || creds.client_secret ||
creds.clientSecret`. -/
def credsAppSecret (creds : Creds) : Option String :=
  jsOr creds.app_secret (jsOr creds.appSecret (jsOr creds.client_secret creds.clientSecret))

/-- Line 55: the `refreshLocks` key, the template literal
`` `${brand.id}_${provider}` ``. -/
def lockKey (brand : Brand) (provider : String) : String :=
  toString brand.id ++ "_" ++ provider

/-! ## The refresh machine (app.js lines 16, 41-108)

`refreshBrandToken` is an async function; Node runs it synchronously from one
`await` to the next.  Its `await` points are: the `await refreshLocks[lockKey]`
of line 57, the `findFirst` inside `getGlobalInstagramFacebookToken` (reached
from lines 58, 67 and 100), the `axios.get` of line 74, and the `upsert`
inside `setGlobalInstagramFacebookToken` (reached from line 87).  Each
constructor of `TaskState` below is one of these suspension points (plus
`entry` and `done`); each machine step runs one task from its suspension
point to the next, performing exactly the effects of that synchronous
segment of the source. -/

/-- Outcome of the token-exchange network call of line 74: a 200 response
with its JSON body (`access_token` / `expires_in` both optional), or axios
throwing (timeout, network error, non-2xx status). -/
inductive ExchangeResult where
  | success (accessTok : Option String) (expiresIn : Option Nat)
  | failed
deriving DecidableEq, Repr

/-- Lines 58-60 and 100-102: overwrite `access_token` in the credentials copy
when the re-read global token is truthy, else leave the copy unchanged. -/
def stampToken (creds : Creds) (tok : Option String) : Creds :=
  if truthyStr tok then { creds with access_token := tok } else creds

/-- Lines 89-92: the credentials copy returned on a successful exchange —
`access_token` set to the response token and, when the response carried a
truthy `expires_in`, `expires_at` set to now plus `expires_in` seconds as an
ISO-8601 string. -/
def exchangeSuccessCreds (creds : Creds) (accessTok : String)
    (expiresIn : Option Nat) (now : Nat) : Creds :=
  if truthyNat expiresIn then
    { creds with
        access_token := some accessTok,
        expires_at := some (toISOString (now + (expiresIn.getD 0) * 1000)) }
  else { creds with access_token := some accessTok }

/-- Suspension points of one `refreshBrandToken(brand, provider)` call. -/
inductive TaskState where
  /-- The call has been made but its body has not run yet. -/
  | entry (brand : Brand) (provider : String)
  /-- Line 57: a lock was present; awaiting promise `pid`. -/
  | waitLock (pid : Nat) (creds : Creds)
  /-- Line 58: lock resolved; awaiting the global-token re-read. -/
  | waitReadToken (creds : Creds)
  /-- Line 67: this call registered promise `pid` under `key`; awaiting the
  global-token read. -/
  | leadReadToken (creds : Creds) (key : String) (pid : Nat) (appIdv appSecretv : String)
  /-- Line 74: awaiting the `axios.get` token exchange. -/
  | leadExchange (creds : Creds) (key : String) (pid : Nat)
      (appIdv appSecretv globalToken : String)
  /-- Line 87: the response carried a truthy `access_token`; awaiting the
  global-store upsert. -/
  | leadSetToken (creds : Creds) (key : String) (pid : Nat)
      (accessTok : String) (expiresIn : Option Nat)
  /-- Line 100: the exchange threw; awaiting the fallback global-token read. -/
  | leadCatchRead (creds : Creds) (key : String) (pid : Nat)
  /-- The call returned `ret` to its caller. -/
  | done (ret : Option Creds)
deriving DecidableEq, Repr

/-- The process state: the `refreshLocks` map (key to pending promise id),
which promises have been resolved, the promise-id supply, the token table,
the queued outcomes of successive exchange calls, a count of exchange network
calls issued, the clock, and the states of all in-flight calls. -/
structure MachineState where
  locks : List (String × Nat)
  resolvedPids : List Nat
  nextPid : Nat
  store : TokenStore
  responses : List ExchangeResult
  exchangeCount : Nat
  now : Nat
  tasks : List TaskState
deriving DecidableEq, Repr

/-- Look a key up in the `refreshLocks` map. -/
def lookupLock (locks : List (String × Nat)) (k : String) : Option Nat :=
  (locks.find? (fun e => e.1 == k)).map (·.2)

/-- Replace the state of task `i`. -/
def setTask (st : MachineState) (i : Nat) (ts : TaskState) : MachineState :=
  { st with tasks := st.tasks.set i ts }

/-- The `finally` block of lines 103-107 followed by the return: resolve the
registered promise, delete the lock entry, and complete the task.  The
source's `resolveLock(); delete refreshLocks[lockKey]` is synchronous, so it
is one atomic step with the return. -/
def finishTask (st : MachineState) (i : Nat) (k : String) (pid : Nat)
    (ret : Option Creds) : MachineState :=
  { setTask st i (.done ret) with
    locks := st.locks.filter (fun e => !(e.1 == k)),
    resolvedPids := pid :: st.resolvedPids }

/-- One scheduler step: run task `i` from its suspension point to the next.
A task awaiting an unresolved promise, or an exchange with no response
available yet, or a completed task, leaves the state unchanged. -/
def stepTask (st : MachineState) (i : Nat) : MachineState :=
  match st.tasks[i]? with
  | none => st
  | some ts =>
    match ts with
    | .entry brand provider =>
      -- Lines 42-64 run synchronously up to the first await.
      match brandCreds brand provider with
      | none => setTask st i (.done none)                  -- line 44
      | some credsRaw =>
        let creds := credsRaw                              -- line 46, `{ ...credsRaw }`
        let appIdv := credsAppId creds
        let appSecretv := credsAppSecret creds
        if truthyStr appIdv && truthyStr appSecretv then
          let k := lockKey brand provider
          match lookupLock st.locks k with
          | some pid => setTask st i (.waitLock pid creds) -- lines 56-57
          | none =>                                        -- lines 63-64, then into line 67
            let pid := st.nextPid
            { setTask st i (.leadReadToken creds k pid (appIdv.getD "") (appSecretv.getD ""))
              with locks := (k, pid) :: st.locks, nextPid := st.nextPid + 1 }
        else setTask st i (.done (some creds))             -- lines 50-53
    | .waitLock pid creds =>
      -- Line 57 resumes only once the registered promise has been resolved.
      if pid ∈ st.resolvedPids then setTask st i (.waitReadToken creds) else st
    | .waitReadToken creds =>
      -- Lines 58-60: re-read the global token, stamp it when truthy, return.
      setTask st i (.done (some (stampToken creds (getGlobalInstagramFacebookToken st.store))))
    | .leadReadToken creds k pid appIdv appSecretv =>
      -- Lines 67-83: the global-token read delivers; on a truthy token the
      -- axios.get network call is issued (counted here), else return via
      -- the `finally`.
      let tok := getGlobalInstagramFacebookToken st.store
      if truthyStr tok then
        { setTask st i (.leadExchange creds k pid appIdv appSecretv (tok.getD ""))
          with exchangeCount := st.exchangeCount + 1 }
      else finishTask st i k pid (some creds)              -- lines 68-71
    | .leadExchange creds k pid _appIdv _appSecretv _globalToken =>
      -- Lines 85-97, or the throw into the catch of line 98.
      match st.responses with
      | [] => st
      | r :: rest =>
        let st1 := { st with responses := rest }
        match r with
        | .failed => setTask st1 i (.leadCatchRead creds k pid)
        | .success accessTok expiresIn =>
          if truthyStr accessTok then
            setTask st1 i (.leadSetToken creds k pid (accessTok.getD "") expiresIn)
          else finishTask st1 i k pid (some creds)         -- lines 93-95
    | .leadSetToken creds k pid accessTok expiresIn =>
      -- Lines 87-92 after the upsert delivers, then the return and `finally`.
      finishTask { st with store := setGlobalInstagramFacebookToken st.store accessTok }
        i k pid (some (exchangeSuccessCreds creds accessTok expiresIn st.now))
    | .leadCatchRead creds k pid =>
      -- Lines 100-102: fallback read, stamp when truthy, return via `finally`.
      finishTask st i k pid (some (stampToken creds (getGlobalInstagramFacebookToken st.store)))
    | .done _ => st

/-- Run the machine under an explicit schedule (the list of task indices the
event loop picks, in order). -/
def runSched (st : MachineState) (sched : List Nat) : MachineState :=
  sched.foldl stepTask st

/-- A fresh process about to run the given calls: empty lock map, no resolved
promises, the given store, queued exchange outcomes, and clock. -/
def initState (store : TokenStore) (responses : List ExchangeResult) (now : Nat)
    (tasks : List TaskState) : MachineState :=
  { locks := [], resolvedPids := [], nextPid := 0, store := store,
    responses := responses, exchangeCount := 0, now := now, tasks := tasks }

/-! ## Posts, delivery and dispatch (app.js lines 685-776) -/

/-- The post fields the delivery operation and the dispatch loop read or
write; the remaining columns are payload-only. -/
structure Post where
  id : Nat
  brandId : Nat
  status : String
  scheduleAt : Option Nat
  lastError : Option String
deriving DecidableEq, Repr

/-- How a `sendPostToN8N(postId)` call ends for its caller: a normal return,
or an error propagated out (a `throw`, line 687 or line 757). -/
inductive SendOutcome where
  | completed
  | thrown (msg : String)
deriving DecidableEq, Repr

/-- Observable effects of one `sendPostToN8N` call: the post table afterwards,
whether the publishing webhook was called, whether an Instagram/Facebook
refresh was attempted, and how the call ended. -/
structure SendEffects where
  posts : List Post
  webhookCalled : Bool
  igRefreshCalled : Bool
  fbRefreshCalled : Bool
  outcome : SendOutcome
deriving DecidableEq, Repr

/-- Prisma `post.update where id` on the modelled fields. -/
def updatePost (posts : List Post) (postId : Nat) (f : Post → Post) : List Post :=
  posts.map (fun p => if p.id == postId then f p else p)

/-- Model of `sendPostToN8N` (app.js lines 685-759).  `brand` is the row
fetched for `post.brandId` (line 694); `webhookOutcome` is the result of the
`axios.post` to the publishing webhook (line 746): `ok` for a 2xx response,
`error msg` when axios throws with message `msg`. -/
def sendPostToN8N (posts : List Post) (brand : Brand) (postId : Nat)
    (webhookOutcome : Except String Unit) : SendEffects :=
  match posts.find? (fun p => p.id == postId) with
  | none => ⟨posts, false, false, false, .thrown "Post not found"⟩    -- line 687
  | some post =>
    if post.status ≠ "approved" ∧ post.status ≠ "scheduled" then
      ⟨posts, false, false, false, .completed⟩                        -- lines 689-692
    else
      -- Lines 718-737: a refresh is attempted exactly when the brand has
      -- credentials stored for the provider; its failures are caught.
      let ig := brand.instagramCredentials.isSome
      let fb := brand.facebookCredentials.isSome
      match webhookOutcome with
      | .ok _ =>                                                      -- lines 746-753
        ⟨updatePost posts postId (fun p => { p with status := "sent" }),
          true, ig, fb, .completed⟩
      | .error e =>                                                   -- lines 754-757
        ⟨updatePost posts postId (fun p => { p with status := "failed", lastError := some e }),
          true, ig, fb, .thrown e⟩

/-- The dispatch-tick query (app.js lines 763-765): posts with
`status: 'scheduled'` and `scheduleAt: { lte: new Date() }`; a null
`scheduleAt` never satisfies an `lte` filter. -/
def dispatchDuePosts (posts : List Post) (now : Nat) : List Post :=
  posts.filter (fun p =>
    p.status == "scheduled" &&
      match p.scheduleAt with
      | some t => t ≤ now
      | none => false)


/-! ## Concrete fixtures (the scenario of spec section 8) -/

/-- Instagram credentials `{ client_id: "1", client_secret: "s",
access_token: "old" }`. -/
def sampleCreds : Creds :=
  { app_id := none, appId := none, client_id := some "1", clientId := none,
    app_secret := none, appSecret := none, client_secret := some "s",
    clientSecret := none, access_token := some "old", expires_at := none }

/-- A brand holding `sampleCreds` as its Instagram credentials. -/
def sampleBrand : Brand :=
  { id := 7, instagramCredentials := some sampleCreds, facebookCredentials := none }

/-- A singleton token table holding `g` in the id-1 row. -/
def sampleStore (g : String) : TokenStore :=
  { rows := [{ id := 1, token := g }], nextId := 2 }


/-! ## Invariant for the concurrent-refresh analysis (claim P1)

The scenario: `m + 1` simultaneous `refreshBrandToken(brand, provider)` calls
with complete credentials, the singleton store holding a truthy token `g`,
and the single exchange answering `success (some newTok) eIn`.  In Node, a
batch of calls issued in one synchronous turn runs each call's entry segment
back to back before any of them resumes from an await, so executions are the
schedules `List.range (m + 1) ++ rest` with `rest` arbitrary.  After the
issue phase exactly one call (the first issued) holds the lock; the phases
below describe every state reachable under an arbitrary `rest`. -/

/-- Followers before the leader completes: parked on the leader's promise. -/
def c1Waiters (creds : Creds) (st : MachineState) : Prop :=
  ∀ j ts, st.tasks[j + 1]? = some ts → ts = TaskState.waitLock 0 creds

/-- Followers once the leader completed: parked, resuming, or returned with
the exchanged token stamped. -/
def c1WaiterDone (creds : Creds) (newTok : String) (ts : TaskState) : Prop :=
  ts = TaskState.waitLock 0 creds ∨ ts = TaskState.waitReadToken creds ∨
    ts = TaskState.done (some { creds with access_token := some newTok })

/-- Leader parked on the global-token read of line 67; no exchange issued. -/
def c1PhaseA (brand : Brand) (provider : String) (creds : Creds) (g newTok : String)
    (eIn : Option Nat) (st : MachineState) : Prop :=
  st.locks = [(lockKey brand provider, 0)] ∧ st.resolvedPids = [] ∧
  st.store = sampleStore g ∧
  st.responses = [ExchangeResult.success (some newTok) eIn] ∧ st.exchangeCount = 0 ∧
  st.tasks[0]? = some (TaskState.leadReadToken creds (lockKey brand provider) 0
    ((credsAppId creds).getD "") ((credsAppSecret creds).getD "")) ∧
  c1Waiters creds st

/-- Leader parked on the `axios.get` of line 74; the one exchange issued. -/
def c1PhaseB (brand : Brand) (provider : String) (creds : Creds) (g newTok : String)
    (eIn : Option Nat) (st : MachineState) : Prop :=
  st.locks = [(lockKey brand provider, 0)] ∧ st.resolvedPids = [] ∧
  st.store = sampleStore g ∧
  st.responses = [ExchangeResult.success (some newTok) eIn] ∧ st.exchangeCount = 1 ∧
  st.tasks[0]? = some (TaskState.leadExchange creds (lockKey brand provider) 0
    ((credsAppId creds).getD "") ((credsAppSecret creds).getD "") g) ∧
  c1Waiters creds st

/-- Leader parked on the store upsert of line 87. -/
def c1PhaseC (brand : Brand) (provider : String) (creds : Creds) (g newTok : String)
    (eIn : Option Nat) (st : MachineState) : Prop :=
  st.locks = [(lockKey brand provider, 0)] ∧ st.resolvedPids = [] ∧
  st.store = sampleStore g ∧
  st.responses = [] ∧ st.exchangeCount = 1 ∧
  st.tasks[0]? = some (TaskState.leadSetToken creds (lockKey brand provider) 0 newTok eIn) ∧
  c1Waiters creds st

/-- Leader returned: token persisted, promise resolved, lock entry deleted. -/
def c1PhaseD (creds : Creds) (newTok : String) (eIn : Option Nat) (now : Nat)
    (st : MachineState) : Prop :=
  st.locks = [] ∧ st.resolvedPids = [0] ∧ st.store = sampleStore newTok ∧
  st.responses = [] ∧ st.exchangeCount = 1 ∧
  st.tasks[0]? = some (TaskState.done (some (exchangeSuccessCreds creds newTok eIn now))) ∧
  (∀ j ts, st.tasks[j + 1]? = some ts → c1WaiterDone creds newTok ts)

/-- Invariant of the post-issue machine under arbitrary scheduling. -/
def c1Inv (brand : Brand) (provider : String) (creds : Creds) (g newTok : String)
    (eIn : Option Nat) (now : Nat) (m : Nat) (st : MachineState) : Prop :=
  st.now = now ∧ st.nextPid = 1 ∧ st.tasks.length = m + 1 ∧
  (c1PhaseA brand provider creds g newTok eIn st ∨
   c1PhaseB brand provider creds g newTok eIn st ∨
   c1PhaseC brand provider creds g newTok eIn st ∨
   c1PhaseD creds newTok eIn now st)

/-- Schedule that lets followers `1 .. k` resume and return, two steps each. -/
def waiterSched : Nat → List Nat
  | 0 => []
  | k + 1 => waiterSched k ++ [k + 1, k + 1]

/-! ## Theorems -/

/-- The last element of `first :: rest`, as a left fold (the token the last
`setGlobalInstagramFacebookToken` call of the sequence wrote). -/
def lastWritten (first : String) (rest : List String) : String :=
  rest.foldl (fun _ t => t) first

theorem setGlobal_keeps_singleton (rest : List String) (cur : String) :
    rest.foldl setGlobalInstagramFacebookToken
        { rows := [{ id := 1, token := cur }], nextId := 2 }
      = { rows := [{ id := 1, token := lastWritten cur rest }], nextId := 2 } := by
  induction rest generalizing cur with
  | nil => rfl
  | cons t ts ih =>
    simp only [List.foldl, lastWritten]
    have hstep : setGlobalInstagramFacebookToken
        { rows := [{ id := 1, token := cur }], nextId := 2 } t
        = { rows := [{ id := 1, token := t }], nextId := 2 } := by
      simp [setGlobalInstagramFacebookToken]
    rw [hstep]
    exact ih t

/-- C2: starting from the freshly migrated empty table, the first
`setGlobalInstagramFacebookToken` call creates the singleton row — the serial
sequence hands out id 1 — and every later call of the sequence updates that
same row, so the table holds exactly one row, with id 1, carrying the last
written token. -/
theorem globalTokenStore_singleton (first : String) (rest : List String) :
    (first :: rest).foldl setGlobalInstagramFacebookToken emptyTokenStore
      = { rows := [{ id := 1, token := lastWritten first rest }], nextId := 2 } := by
  have hfirst : setGlobalInstagramFacebookToken emptyTokenStore first
      = { rows := [{ id := 1, token := first }], nextId := 2 } := by
    simp [setGlobalInstagramFacebookToken, emptyTokenStore]
  simp only [List.foldl, hfirst]
  exact setGlobal_keeps_singleton rest first

/-- C9: one dispatch tick selects exactly the posts whose status is
`scheduled` and whose `scheduleAt` is a time less than or equal to now; a
future `scheduleAt`, a missing `scheduleAt`, or any other status is never
selected. -/
theorem dispatchDuePosts_selects_exactly (posts : List Post) (now : Nat) (p : Post) :
    p ∈ dispatchDuePosts posts now ↔
      p ∈ posts ∧ p.status = "scheduled" ∧ ∃ t, p.scheduleAt = some t ∧ t ≤ now := by
  unfold dispatchDuePosts
  rw [List.mem_filter]
  cases hsch : p.scheduleAt with
  | none => simp [hsch]
  | some t => simp [hsch]

/-- C10: `refreshBrandToken` reads `instagramCredentials` for every provider
string other than the exact string `facebook` — including the parameter
default `instagram` and unrecognized values — while the lock key is derived
from the provider string as given, so two calls with distinct non-facebook
provider strings work on the same credentials under distinct lock keys. -/
theorem refreshBrandToken_nonfacebook_providers (brand : Brand) (p1 p2 : String)
    (h1 : p1 ≠ "facebook") (h2 : p2 ≠ "facebook") (hne : p1 ≠ p2) :
    brandCreds brand p1 = brand.instagramCredentials ∧
    brandCreds brand p2 = brand.instagramCredentials ∧
    brandCreds brand refreshDefaultProvider = brand.instagramCredentials ∧
    brandCreds brand p1 = brandCreds brand p2 ∧
    lockKey brand p1 ≠ lockKey brand p2 := by
  have e1 : brandCreds brand p1 = brand.instagramCredentials := by
    simp [brandCreds, h1]
  have e2 : brandCreds brand p2 = brand.instagramCredentials := by
    simp [brandCreds, h2]
  refine ⟨e1, e2, by simp [brandCreds, refreshDefaultProvider], e1.trans e2.symm, ?_⟩
  intro h
  apply hne
  have hd : ((toString brand.id ++ "_") ++ p1).data = ((toString brand.id ++ "_") ++ p2).data := by
    rw [show (toString brand.id ++ "_") ++ p1 = lockKey brand p1 from rfl,
      show (toString brand.id ++ "_") ++ p2 = lockKey brand p2 from rfl, h]
  simp only [String.data_append] at hd
  exact String.ext (List.append_cancel_left hd)

/-- Closed instance of `refreshBrandToken_nonfacebook_providers` at a concrete
brand and the provider strings `instagram` (the default) and `tiktok`. -/
theorem refreshBrandToken_nonfacebook_providers_witness :
    ("instagram" ≠ "facebook" ∧ "tiktok" ≠ "facebook" ∧ "instagram" ≠ "tiktok") ∧
    (brandCreds { id := 7, instagramCredentials := none, facebookCredentials := none } "instagram"
        = Brand.instagramCredentials { id := 7, instagramCredentials := none, facebookCredentials := none } ∧
      brandCreds { id := 7, instagramCredentials := none, facebookCredentials := none } "tiktok"
        = Brand.instagramCredentials { id := 7, instagramCredentials := none, facebookCredentials := none } ∧
      brandCreds { id := 7, instagramCredentials := none, facebookCredentials := none } refreshDefaultProvider
        = Brand.instagramCredentials { id := 7, instagramCredentials := none, facebookCredentials := none } ∧
      brandCreds { id := 7, instagramCredentials := none, facebookCredentials := none } "instagram"
        = brandCreds { id := 7, instagramCredentials := none, facebookCredentials := none } "tiktok" ∧
      lockKey { id := 7, instagramCredentials := none, facebookCredentials := none } "instagram"
        ≠ lockKey { id := 7, instagramCredentials := none, facebookCredentials := none } "tiktok") :=
  ⟨⟨by decide, by decide, by decide⟩,
    refreshBrandToken_nonfacebook_providers _ "instagram" "tiktok"
      (by decide) (by decide) (by decide)⟩

theorem find?_updatePost (posts : List Post) (postId : Nat) (f : Post → Post)
    (hf : ∀ p, (f p).id = p.id) :
    (updatePost posts postId f).find? (fun p => p.id == postId)
      = (posts.find? (fun p => p.id == postId)).map f := by
  induction posts with
  | nil => rfl
  | cons p ps ih =>
    unfold updatePost at ih ⊢
    cases hq : (p.id == postId) with
    | true =>
      have hfq : ((f p).id == postId) = true := by rw [hf]; exact hq
      simp only [List.map_cons, hq, if_true, List.find?, hfq, Option.map_some']
    | false =>
      simp only [List.map_cons, hq, Bool.false_eq_true, if_false, List.find?]
      exact ih

/-- C7: for an existing post whose status is `approved` or `scheduled`,
`sendPostToN8N` marks the post `sent` when the publishing-webhook call
succeeds; when the call fails with message `e` it marks the post `failed`,
records `e` in `lastError`, and re-raises the error to its caller. -/
theorem sendPostToN8N_marks_outcome (posts : List Post) (brand : Brand)
    (post : Post) (wk : Except String Unit)
    (hfind : posts.find? (fun p => p.id == post.id) = some post)
    (hstatus : post.status = "approved" ∨ post.status = "scheduled") :
    (wk = .ok () →
      (sendPostToN8N posts brand post.id wk).outcome = .completed ∧
      (sendPostToN8N posts brand post.id wk).posts.find? (fun p => p.id == post.id)
        = some { post with status := "sent" }) ∧
    (∀ e, wk = .error e →
      (sendPostToN8N posts brand post.id wk).outcome = .thrown e ∧
      (sendPostToN8N posts brand post.id wk).posts.find? (fun p => p.id == post.id)
        = some { post with status := "failed", lastError := some e }) := by
  have hcond : ¬(post.status ≠ "approved" ∧ post.status ≠ "scheduled") := by
    rcases hstatus with h | h <;> simp [h]
  constructor
  · rintro rfl
    refine ⟨by simp [sendPostToN8N, hfind, hcond], ?_⟩
    have hr : (sendPostToN8N posts brand post.id (.ok ())).posts
        = updatePost posts post.id (fun p => { p with status := "sent" }) := by
      simp [sendPostToN8N, hfind, hcond]
    rw [hr, find?_updatePost posts post.id (fun p => { p with status := "sent" })
      (fun _ => rfl), hfind]
    rfl
  · rintro e rfl
    refine ⟨by simp [sendPostToN8N, hfind, hcond], ?_⟩
    have hr : (sendPostToN8N posts brand post.id (.error e)).posts
        = updatePost posts post.id
            (fun p => { p with status := "failed", lastError := some e }) := by
      simp [sendPostToN8N, hfind, hcond]
    rw [hr, find?_updatePost posts post.id
      (fun p => { p with status := "failed", lastError := some e }) (fun _ => rfl), hfind]
    rfl

/-- Closed instance of `sendPostToN8N_marks_outcome`: a one-post table with an
approved post and a succeeding webhook call. -/
theorem sendPostToN8N_marks_outcome_witness :
    (([({ id := 5, brandId := 1, status := "approved", scheduleAt := none, lastError := none } : Post)].find? (fun p => p.id == 5)
        = some { id := 5, brandId := 1, status := "approved", scheduleAt := none, lastError := none }) ∧
      (("approved" : String) = "approved" ∨ ("approved" : String) = "scheduled")) ∧
    ((Except.ok () = (Except.ok () : Except String Unit) →
      (sendPostToN8N [{ id := 5, brandId := 1, status := "approved", scheduleAt := none, lastError := none }] { id := 1, instagramCredentials := none, facebookCredentials := none } 5 (.ok ())).outcome = .completed ∧
      (sendPostToN8N [{ id := 5, brandId := 1, status := "approved", scheduleAt := none, lastError := none }] { id := 1, instagramCredentials := none, facebookCredentials := none } 5 (.ok ())).posts.find? (fun p => p.id == 5)
        = some { id := 5, brandId := 1, status := "sent", scheduleAt := none, lastError := none }) ∧
    (∀ e, (Except.ok () : Except String Unit) = .error e →
      (sendPostToN8N [{ id := 5, brandId := 1, status := "approved", scheduleAt := none, lastError := none }] { id := 1, instagramCredentials := none, facebookCredentials := none } 5 (.ok ())).outcome = .thrown e ∧
      (sendPostToN8N [{ id := 5, brandId := 1, status := "approved", scheduleAt := none, lastError := none }] { id := 1, instagramCredentials := none, facebookCredentials := none } 5 (.ok ())).posts.find? (fun p => p.id == 5)
        = some { id := 5, brandId := 1, status := "failed", scheduleAt := none, lastError := some e })) :=
  ⟨⟨by decide, Or.inl rfl⟩,
    sendPostToN8N_marks_outcome
      [{ id := 5, brandId := 1, status := "approved", scheduleAt := none, lastError := none }]
      { id := 1, instagramCredentials := none, facebookCredentials := none }
      { id := 5, brandId := 1, status := "approved", scheduleAt := none, lastError := none }
      (.ok ()) (by decide) (Or.inl rfl)⟩

/-- C8: for an existing post whose status is neither `approved` nor
`scheduled`, `sendPostToN8N` is a silent no-op: the publishing webhook is not
called, no credential refresh is attempted, the post table (statuses and
`lastError` included) is unchanged, and no error propagates. -/
theorem sendPostToN8N_silent_noop (posts : List Post) (brand : Brand)
    (post : Post) (wk : Except String Unit)
    (hfind : posts.find? (fun p => p.id == post.id) = some post)
    (h1 : post.status ≠ "approved") (h2 : post.status ≠ "scheduled") :
    sendPostToN8N posts brand post.id wk
      = { posts := posts, webhookCalled := false, igRefreshCalled := false,
          fbRefreshCalled := false, outcome := .completed } := by
  simp [sendPostToN8N, hfind, h1, h2]

/-- Closed instance of `sendPostToN8N_silent_noop` at a draft post. -/
theorem sendPostToN8N_silent_noop_witness :
    (([({ id := 9, brandId := 2, status := "draft", scheduleAt := none, lastError := none } : Post)].find? (fun p => p.id == 9)
        = some { id := 9, brandId := 2, status := "draft", scheduleAt := none, lastError := none }) ∧
      ("draft" : String) ≠ "approved" ∧ ("draft" : String) ≠ "scheduled") ∧
    sendPostToN8N [{ id := 9, brandId := 2, status := "draft", scheduleAt := none, lastError := none }] { id := 2, instagramCredentials := none, facebookCredentials := none } 9 (.error "boom")
      = { posts := [{ id := 9, brandId := 2, status := "draft", scheduleAt := none, lastError := none }], webhookCalled := false, igRefreshCalled := false,
          fbRefreshCalled := false, outcome := .completed } :=
  ⟨⟨by decide, by decide, by decide⟩,
    sendPostToN8N_silent_noop
      [{ id := 9, brandId := 2, status := "draft", scheduleAt := none, lastError := none }]
      { id := 2, instagramCredentials := none, facebookCredentials := none }
      { id := 9, brandId := 2, status := "draft", scheduleAt := none, lastError := none }
      (.error "boom") (by decide) (by decide) (by decide)⟩

theorem stepTask_on_done (st : MachineState) (i : Nat) (r : Option Creds)
    (h : st.tasks[i]? = some (.done r)) : stepTask st i = st := by
  simp [stepTask, h]

theorem truthyStr_none_eq : truthyStr none = false := rfl

theorem truthyStr_some_true (s : String) (h : s ≠ "") : truthyStr (some s) = true := by
  simp [truthyStr, h]

theorem truthyStr_empty_eq : truthyStr (some "") = false := rfl

/-- C6: a single `refreshBrandToken` call returns null exactly when the brand
has no stored credentials for the provider; and when credentials exist but no
truthy app id or app secret resolves from the accepted aliases, it returns
the credentials unchanged, issues no exchange network call, registers no
lock, and leaves the global token store untouched. -/
theorem refreshBrandToken_null_iff_no_creds (brand : Brand) (provider : String)
    (store0 : TokenStore) (resp : ExchangeResult) (now : Nat) :
    (∃ r, (runSched (initState store0 [resp] now [.entry brand provider])
        [0, 0, 0, 0, 0]).tasks[0]? = some (.done r) ∧
      (r = none ↔ brandCreds brand provider = none)) ∧
    (∀ creds, brandCreds brand provider = some creds →
      ¬(truthyStr (credsAppId creds) ∧ truthyStr (credsAppSecret creds)) →
      runSched (initState store0 [resp] now [.entry brand provider]) [0, 0, 0, 0, 0]
        = { initState store0 [resp] now [.entry brand provider] with
            tasks := [.done (some creds)] }) := by
  constructor
  · rcases hbc : brandCreds brand provider with _ | creds
    · refine ⟨none, ?_, by simp⟩
      simp [runSched, stepTask, initState, setTask, hbc]
    · by_cases hb : (truthyStr (credsAppId creds) && truthyStr (credsAppSecret creds)) = true
      · rcases hg : getGlobalInstagramFacebookToken store0 with _ | g
        · refine ⟨some creds, ?_, by simp [hbc]⟩
          simp [runSched, stepTask, initState, setTask, finishTask, hbc, hb, hg,
            lookupLock, truthyStr_none_eq]
        · by_cases hgt : g = ""
          · refine ⟨some creds, ?_, by simp [hbc]⟩
            simp [runSched, stepTask, initState, setTask, finishTask, hbc, hb, hg,
              lookupLock, hgt, truthyStr_empty_eq]
          · rcases resp with ⟨aTok, eIn⟩ | _
            · by_cases hat : truthyStr aTok = true
              · refine ⟨some (exchangeSuccessCreds creds (aTok.getD "") eIn now), ?_,
                  by simp [hbc]⟩
                simp [runSched, stepTask, initState, setTask, finishTask, hbc, hb, hg,
                  lookupLock, truthyStr_some_true g hgt, hat]
              · refine ⟨some creds, ?_, by simp [hbc]⟩
                simp [runSched, stepTask, initState, setTask, finishTask, hbc, hb, hg,
                  lookupLock, truthyStr_some_true g hgt, hat]
            · refine ⟨some (stampToken creds (some g)), ?_, by simp [hbc]⟩
              simp [runSched, stepTask, initState, setTask, finishTask, hbc, hb, hg,
                lookupLock, truthyStr_some_true g hgt]
      · refine ⟨some creds, ?_, by simp [hbc]⟩
        simp [runSched, stepTask, initState, setTask, hbc, hb]
  · intro creds hbc hnc
    have hb : (truthyStr (credsAppId creds) && truthyStr (credsAppSecret creds)) = false := by
      rcases h1 : truthyStr (credsAppId creds) <;>
        rcases h2 : truthyStr (credsAppSecret creds) <;> simp_all
    simp [runSched, stepTask, initState, setTask, hbc, hb]

/-- Closed instance of `refreshBrandToken_null_iff_no_creds`, at a brand whose
Instagram credentials lack every app-id alias. -/
theorem refreshBrandToken_null_iff_no_creds_witness :
    (∃ r, (runSched (initState (sampleStore "g") [.failed] 3
        [.entry { id := 4, instagramCredentials := some { sampleCreds with client_id := none }, facebookCredentials := none } "instagram"])
        [0, 0, 0, 0, 0]).tasks[0]? = some (.done r) ∧
      (r = none ↔ brandCreds { id := 4, instagramCredentials := some { sampleCreds with client_id := none }, facebookCredentials := none } "instagram" = none)) ∧
    (∀ creds, brandCreds { id := 4, instagramCredentials := some { sampleCreds with client_id := none }, facebookCredentials := none } "instagram" = some creds →
      ¬(truthyStr (credsAppId creds) ∧ truthyStr (credsAppSecret creds)) →
      runSched (initState (sampleStore "g") [.failed] 3
          [.entry { id := 4, instagramCredentials := some { sampleCreds with client_id := none }, facebookCredentials := none } "instagram"]) [0, 0, 0, 0, 0]
        = { initState (sampleStore "g") [.failed] 3
            [.entry { id := 4, instagramCredentials := some { sampleCreds with client_id := none }, facebookCredentials := none } "instagram"] with
            tasks := [.done (some creds)] }) :=
  refreshBrandToken_null_iff_no_creds
    { id := 4, instagramCredentials := some { sampleCreds with client_id := none }, facebookCredentials := none }
    "instagram" (sampleStore "g") .failed 3

/-- C3: when the brand has provider credentials with a truthy app id and app
secret, a truthy global token is stored (so the exchange call is issued) and
the exchange call fails, `refreshBrandToken` does not throw: exactly one
exchange call was issued, the call completes normally, it re-reads the
current global token and returns the credentials copy with that token
stamped into `access_token`. -/
theorem refreshBrandToken_failure_fallback (brand : Brand) (provider : String)
    (creds : Creds) (store0 : TokenStore) (g : String) (now : Nat)
    (hbc : brandCreds brand provider = some creds)
    (hb : (truthyStr (credsAppId creds) && truthyStr (credsAppSecret creds)) = true)
    (hg : getGlobalInstagramFacebookToken store0 = some g) (hgt : g ≠ "") :
    (runSched (initState store0 [.failed] now [.entry brand provider])
        [0, 0, 0, 0]).tasks[0]?
      = some (.done (some { creds with access_token := some g })) ∧
    (runSched (initState store0 [.failed] now [.entry brand provider])
        [0, 0, 0, 0]).store = store0 ∧
    (runSched (initState store0 [.failed] now [.entry brand provider])
        [0, 0, 0, 0]).exchangeCount = 1 := by
  refine ⟨?_, ?_, ?_⟩ <;>
    simp [runSched, stepTask, initState, setTask, finishTask, hbc, hb, hg,
      lookupLock, truthyStr_some_true g hgt, stampToken]

/-- Closed instance of `refreshBrandToken_failure_fallback` at the sample
brand, global token `global-old`, and a failing exchange. -/
theorem refreshBrandToken_failure_fallback_witness :
    (brandCreds sampleBrand "instagram" = some sampleCreds ∧
      (truthyStr (credsAppId sampleCreds) && truthyStr (credsAppSecret sampleCreds)) = true ∧
      getGlobalInstagramFacebookToken (sampleStore "global-old") = some "global-old" ∧
      ("global-old" : String) ≠ "") ∧
    ((runSched (initState (sampleStore "global-old") [.failed] 1700000000000
        [.entry sampleBrand "instagram"]) [0, 0, 0, 0]).tasks[0]?
      = some (.done (some { sampleCreds with access_token := some "global-old" })) ∧
    (runSched (initState (sampleStore "global-old") [.failed] 1700000000000
        [.entry sampleBrand "instagram"]) [0, 0, 0, 0]).store = sampleStore "global-old" ∧
    (runSched (initState (sampleStore "global-old") [.failed] 1700000000000
        [.entry sampleBrand "instagram"]) [0, 0, 0, 0]).exchangeCount = 1) :=
  ⟨⟨by decide, by decide, by decide, by decide⟩,
    refreshBrandToken_failure_fallback sampleBrand "instagram" sampleCreds
      (sampleStore "global-old") "global-old" 1700000000000
      (by decide) (by decide) (by decide) (by decide)⟩

/-- C4 (amended): with complete credentials and a truthy global token stored
in the singleton row, when the exchange response carries a truthy
`access_token`, `refreshBrandToken` persists that token as the new global
token and sets `access_token` on the returned credentials copy to it; and
when the response also carries a nonzero `expires_in`, it sets `expires_at`
on the copy to now plus `expires_in` seconds, rendered as an ISO-8601
string.  (The source guards `expires_at` with JavaScript truthiness, so a
response whose `expires_in` is the number 0 does not stamp `expires_at`;
see the counterexample.) -/
theorem refreshBrandToken_success_updates (brand : Brand) (provider : String)
    (creds : Creds) (g newTok : String) (eIn : Option Nat) (now : Nat)
    (hbc : brandCreds brand provider = some creds)
    (hb : (truthyStr (credsAppId creds) && truthyStr (credsAppSecret creds)) = true)
    (hgt : g ≠ "") (hnt : newTok ≠ "") :
    getGlobalInstagramFacebookToken
        (runSched (initState (sampleStore g) [.success (some newTok) eIn] now
          [.entry brand provider]) [0, 0, 0, 0]).store = some newTok ∧
    (runSched (initState (sampleStore g) [.success (some newTok) eIn] now
        [.entry brand provider]) [0, 0, 0, 0]).tasks[0]?
      = some (.done (some (exchangeSuccessCreds creds newTok eIn now))) ∧
    (exchangeSuccessCreds creds newTok eIn now).access_token = some newTok ∧
    (∀ e, eIn = some e → e ≠ 0 →
      (exchangeSuccessCreds creds newTok eIn now).expires_at
        = some (toISOString (now + e * 1000))) := by
  have hstep : runSched (initState (sampleStore g) [.success (some newTok) eIn] now
      [.entry brand provider]) [0, 0, 0, 0]
      = { locks := [], resolvedPids := [0], nextPid := 1,
          store := sampleStore newTok, responses := [], exchangeCount := 1, now := now,
          tasks := [.done (some (exchangeSuccessCreds creds newTok eIn now))] } := by
    simp [runSched, stepTask, initState, setTask, finishTask, hbc, hb, lookupLock,
      sampleStore, getGlobalInstagramFacebookToken, truthyStr_some_true g hgt,
      truthyStr_some_true newTok hnt, setGlobalInstagramFacebookToken]
  refine ⟨?_, ?_, ?_, ?_⟩
  · rw [hstep]; simp [getGlobalInstagramFacebookToken, sampleStore]
  · rw [hstep]; rfl
  · rcases heIn : eIn with _ | e
    · simp [exchangeSuccessCreds, truthyNat]
    · by_cases he : e = 0
      · simp [exchangeSuccessCreds, truthyNat, he]
      · simp [exchangeSuccessCreds, truthyNat, he]
  · intro e heq hne
    subst heq
    simp [exchangeSuccessCreds, truthyNat, hne]

/-- Closed instance of `refreshBrandToken_success_updates`, the scenario of
spec section 8: global token `global-old`, exchange response
`{ access_token: "global-new", expires_in: 3600 }`. -/
theorem refreshBrandToken_success_updates_witness :
    (brandCreds sampleBrand "instagram" = some sampleCreds ∧
      (truthyStr (credsAppId sampleCreds) && truthyStr (credsAppSecret sampleCreds)) = true ∧
      ("global-old" : String) ≠ "" ∧ ("global-new" : String) ≠ "") ∧
    (getGlobalInstagramFacebookToken
        (runSched (initState (sampleStore "global-old")
          [.success (some "global-new") (some 3600)] 1700000000000
          [.entry sampleBrand "instagram"]) [0, 0, 0, 0]).store = some "global-new" ∧
    (runSched (initState (sampleStore "global-old")
        [.success (some "global-new") (some 3600)] 1700000000000
        [.entry sampleBrand "instagram"]) [0, 0, 0, 0]).tasks[0]?
      = some (.done (some (exchangeSuccessCreds sampleCreds "global-new" (some 3600) 1700000000000))) ∧
    (exchangeSuccessCreds sampleCreds "global-new" (some 3600) 1700000000000).access_token
      = some "global-new" ∧
    (∀ e, (some 3600 : Option Nat) = some e → e ≠ 0 →
      (exchangeSuccessCreds sampleCreds "global-new" (some 3600) 1700000000000).expires_at
        = some (toISOString (1700000000000 + e * 1000)))) :=
  ⟨⟨by decide, by decide, by decide, by decide⟩,
    refreshBrandToken_success_updates sampleBrand "instagram" sampleCreds
      "global-old" "global-new" (some 3600) 1700000000000
      (by decide) (by decide) (by decide) (by decide)⟩

/-- Counterexample to C4 as stated: a response that contains
`expires_in: 0` — present, but falsy in JavaScript — leaves `expires_at`
unset on the returned copy, instead of stamping now plus 0 seconds. -/
theorem refreshBrandToken_expires_in_zero_cex :
    (runSched (initState (sampleStore "global-old")
        [.success (some "global-new") (some 0)] 1700000000000
        [.entry sampleBrand "instagram"]) [0, 0, 0, 0]).tasks[0]?
      = some (.done (some (exchangeSuccessCreds sampleCreds "global-new" (some 0) 1700000000000))) ∧
    (exchangeSuccessCreds sampleCreds "global-new" (some 0) 1700000000000).expires_at = none ∧
    (exchangeSuccessCreds sampleCreds "global-new" (some 0) 1700000000000).expires_at
      ≠ some (toISOString (1700000000000 + 0 * 1000)) := by
  refine ⟨by decide, by decide, by decide⟩

/-- C5: a `refreshBrandToken` call that registered the in-flight marker
always completes — exchange success with or without a token, skip for a
missing or empty global token, and the exchange throwing are all covered by
quantifying over the store and the response — and afterwards no lock entry
remains for its key, so a fresh call for the same key then takes the
register-and-lead path, not the wait path. -/
theorem refreshBrandToken_lock_cleanup (brand : Brand) (provider : String)
    (creds : Creds) (store0 : TokenStore) (resp : ExchangeResult) (now : Nat)
    (hbc : brandCreds brand provider = some creds)
    (hb : (truthyStr (credsAppId creds) && truthyStr (credsAppSecret creds)) = true) :
    lookupLock (runSched (initState store0 [resp] now
        [.entry brand provider, .entry brand provider]) [0, 0, 0, 0]).locks
        (lockKey brand provider) = none ∧
    (∃ r, (runSched (initState store0 [resp] now
        [.entry brand provider, .entry brand provider]) [0, 0, 0, 0]).tasks[0]?
      = some (.done r)) ∧
    (stepTask (runSched (initState store0 [resp] now
        [.entry brand provider, .entry brand provider]) [0, 0, 0, 0]) 1).tasks[1]?
      = some (.leadReadToken creds (lockKey brand provider)
          (runSched (initState store0 [resp] now
            [.entry brand provider, .entry brand provider]) [0, 0, 0, 0]).nextPid
          ((credsAppId creds).getD "") ((credsAppSecret creds).getD "")) := by
  rcases hg : getGlobalInstagramFacebookToken store0 with _ | g
  · refine ⟨?_, ⟨some creds, ?_⟩, ?_⟩ <;>
      simp [runSched, stepTask, initState, setTask, finishTask, hbc, hb, hg,
        lookupLock, truthyStr_none_eq]
  · by_cases hgt : g = ""
    · subst hgt
      refine ⟨?_, ⟨some creds, ?_⟩, ?_⟩ <;>
        simp [runSched, stepTask, initState, setTask, finishTask, hbc, hb, hg,
          lookupLock, truthyStr_empty_eq]
    · rcases resp with ⟨aTok, eIn⟩ | _
      · by_cases hat : truthyStr aTok = true
        · refine ⟨?_, ⟨some (exchangeSuccessCreds creds (aTok.getD "") eIn now), ?_⟩, ?_⟩ <;>
            simp [runSched, stepTask, initState, setTask, finishTask, hbc, hb, hg,
              lookupLock, truthyStr_some_true g hgt, hat]
        · refine ⟨?_, ⟨some creds, ?_⟩, ?_⟩ <;>
            simp [runSched, stepTask, initState, setTask, finishTask, hbc, hb, hg,
              lookupLock, truthyStr_some_true g hgt, hat]
      · refine ⟨?_, ⟨some (stampToken creds (some g)), ?_⟩, ?_⟩ <;>
          simp [runSched, stepTask, initState, setTask, finishTask, hbc, hb, hg,
            lookupLock, truthyStr_some_true g hgt]

/-- Closed instance of `refreshBrandToken_lock_cleanup` at the sample brand
with a failing exchange. -/
theorem refreshBrandToken_lock_cleanup_witness :
    (brandCreds sampleBrand "instagram" = some sampleCreds ∧
      (truthyStr (credsAppId sampleCreds) && truthyStr (credsAppSecret sampleCreds)) = true) ∧
    (lookupLock (runSched (initState (sampleStore "global-old") [.failed] 5
        [.entry sampleBrand "instagram", .entry sampleBrand "instagram"]) [0, 0, 0, 0]).locks
        (lockKey sampleBrand "instagram") = none ∧
    (∃ r, (runSched (initState (sampleStore "global-old") [.failed] 5
        [.entry sampleBrand "instagram", .entry sampleBrand "instagram"]) [0, 0, 0, 0]).tasks[0]?
      = some (.done r)) ∧
    (stepTask (runSched (initState (sampleStore "global-old") [.failed] 5
        [.entry sampleBrand "instagram", .entry sampleBrand "instagram"]) [0, 0, 0, 0]) 1).tasks[1]?
      = some (.leadReadToken sampleCreds (lockKey sampleBrand "instagram")
          (runSched (initState (sampleStore "global-old") [.failed] 5
            [.entry sampleBrand "instagram", .entry sampleBrand "instagram"]) [0, 0, 0, 0]).nextPid
          ((credsAppId sampleCreds).getD "") ((credsAppSecret sampleCreds).getD ""))) :=
  ⟨⟨by decide, by decide⟩,
    refreshBrandToken_lock_cleanup sampleBrand "instagram" sampleCreds
      (sampleStore "global-old") .failed 5 (by decide) (by decide)⟩

theorem set_append_cons_length {α : Type} (l1 : List α) (y z : α) (l2 : List α) :
    (l1 ++ y :: l2).set l1.length z = l1 ++ z :: l2 := by
  induction l1 with
  | nil => rfl
  | cons x xs ih => simp [List.set, ih]

theorem exchangeSuccessCreds_access_token (creds : Creds) (t : String)
    (eIn : Option Nat) (now : Nat) :
    (exchangeSuccessCreds creds t eIn now).access_token = some t := by
  unfold exchangeSuccessCreds
  split <;> rfl

theorem stampToken_truthy (creds : Creds) (t : String) (h : t ≠ "") :
    stampToken creds (some t) = { creds with access_token := some t } := by
  simp [stampToken, truthyStr_some_true t h]

theorem runSched_append (st : MachineState) (l1 l2 : List Nat) :
    runSched st (l1 ++ l2) = runSched (runSched st l1) l2 :=
  List.foldl_append stepTask st l1 l2

theorem c1_issue_partial (brand : Brand) (provider : String) (creds : Creds)
    (g newTok : String) (eIn : Option Nat) (now : Nat) (m : Nat)
    (hbc : brandCreds brand provider = some creds)
    (hb : (truthyStr (credsAppId creds) && truthyStr (credsAppSecret creds)) = true) :
    ∀ j, j ≤ m →
    runSched (initState (sampleStore g) [.success (some newTok) eIn] now
        (List.replicate (m + 1) (.entry brand provider))) (List.range (j + 1))
      = { locks := [(lockKey brand provider, 0)], resolvedPids := [], nextPid := 1,
          store := sampleStore g, responses := [.success (some newTok) eIn],
          exchangeCount := 0, now := now,
          tasks := .leadReadToken creds (lockKey brand provider) 0
              ((credsAppId creds).getD "") ((credsAppSecret creds).getD "")
            :: (List.replicate j (.waitLock 0 creds)
              ++ List.replicate (m - j) (.entry brand provider)) } := by
  intro j
  induction j with
  | zero =>
    intro _
    have h1 : List.range 1 = [0] := rfl
    rw [h1]
    simp [runSched, stepTask, initState, setTask, hbc, hb, lookupLock,
      List.replicate_succ]
  | succ j ih =>
    intro hj
    have hjm : j ≤ m := Nat.le_of_succ_le hj
    have hsub : m - j = (m - (j + 1)) + 1 := by omega
    rw [List.range_succ, runSched_append, ih hjm, hsub, List.replicate_succ]
    have htask : (TaskState.leadReadToken creds (lockKey brand provider) 0
          ((credsAppId creds).getD "") ((credsAppSecret creds).getD "")
        :: (List.replicate j (.waitLock 0 creds)
          ++ .entry brand provider
            :: List.replicate (m - (j + 1)) (.entry brand provider)))[j + 1]?
        = some (.entry brand provider) := by
      rw [List.getElem?_cons_succ, List.getElem?_append_right (by simp)]
      simp
    have hlk : lookupLock [(lockKey brand provider, 0)] (lockKey brand provider)
        = some 0 := by
      simp [lookupLock]
    have hset : (List.replicate j (TaskState.waitLock 0 creds)
          ++ TaskState.entry brand provider
            :: List.replicate (m - (j + 1)) (TaskState.entry brand provider)).set j
          (TaskState.waitLock 0 creds)
        = List.replicate (j + 1) (TaskState.waitLock 0 creds)
          ++ List.replicate (m - (j + 1)) (TaskState.entry brand provider) := by
      have hs := set_append_cons_length
        (List.replicate j (TaskState.waitLock 0 creds))
        (TaskState.entry brand provider) (TaskState.waitLock 0 creds)
        (List.replicate (m - (j + 1)) (TaskState.entry brand provider))
      rw [List.length_replicate] at hs
      rw [hs, List.replicate_succ', List.append_assoc]
      rfl
    simp [runSched, stepTask, htask, hbc, hb, hlk, setTask, List.set_cons_succ, hset]

theorem c1_issue_full (brand : Brand) (provider : String) (creds : Creds)
    (g newTok : String) (eIn : Option Nat) (now : Nat) (m : Nat)
    (hbc : brandCreds brand provider = some creds)
    (hb : (truthyStr (credsAppId creds) && truthyStr (credsAppSecret creds)) = true) :
    runSched (initState (sampleStore g) [.success (some newTok) eIn] now
        (List.replicate (m + 1) (.entry brand provider))) (List.range (m + 1))
      = { locks := [(lockKey brand provider, 0)], resolvedPids := [], nextPid := 1,
          store := sampleStore g, responses := [.success (some newTok) eIn],
          exchangeCount := 0, now := now,
          tasks := .leadReadToken creds (lockKey brand provider) 0
              ((credsAppId creds).getD "") ((credsAppSecret creds).getD "")
            :: List.replicate m (.waitLock 0 creds) } := by
  have h := c1_issue_partial brand provider creds g newTok eIn now m hbc hb m le_rfl
  simpa using h

theorem c1Inv_after_issue (brand : Brand) (provider : String) (creds : Creds)
    (g newTok : String) (eIn : Option Nat) (now : Nat) (m : Nat) :
    c1Inv brand provider creds g newTok eIn now m
      { locks := [(lockKey brand provider, 0)], resolvedPids := [], nextPid := 1,
        store := sampleStore g, responses := [.success (some newTok) eIn],
        exchangeCount := 0, now := now,
        tasks := .leadReadToken creds (lockKey brand provider) 0
            ((credsAppId creds).getD "") ((credsAppSecret creds).getD "")
          :: List.replicate m (.waitLock 0 creds) } := by
  refine ⟨rfl, rfl, by simp, Or.inl ⟨rfl, rfl, rfl, rfl, rfl, by simp, ?_⟩⟩
  intro j ts h
  rw [List.getElem?_cons_succ, List.getElem?_replicate] at h
  by_cases hj : j < m
  · simp [hj] at h
    exact h.symm
  · simp [hj] at h

theorem c1Inv_step (brand : Brand) (provider : String) (creds : Creds)
    (g newTok : String) (eIn : Option Nat) (now : Nat) (m : Nat)
    (hgt : g ≠ "") (hnt : newTok ≠ "") (st : MachineState)
    (h : c1Inv brand provider creds g newTok eIn now m st) (i : Nat) :
    c1Inv brand provider creds g newTok eIn now m (stepTask st i) := by
  obtain ⟨hnow, hpid, hlen, hphase⟩ := h
  rcases hti : st.tasks[i]? with _ | ts
  · rw [show stepTask st i = st from by simp [stepTask, hti]]
    exact ⟨hnow, hpid, hlen, hphase⟩
  rcases i with _ | j
  · -- the leading call takes a step
    rcases hphase with hA | hB | hC | hD
    · obtain ⟨hl, hr, hs, hresp, hex, ht0, hw⟩ := hA
      rw [hti] at ht0
      have hts := Option.some.inj ht0
      subst hts
      have hlt0 : 0 < st.tasks.length := (List.getElem?_eq_some.mp hti).1
      have hstep : stepTask st 0 = { st with
          tasks := st.tasks.set 0 (.leadExchange creds (lockKey brand provider) 0
            ((credsAppId creds).getD "") ((credsAppSecret creds).getD "") g),
          exchangeCount := st.exchangeCount + 1 } := by
        simp [stepTask, hti, hs, getGlobalInstagramFacebookToken, sampleStore,
          truthyStr_some_true g hgt, setTask]
      refine ⟨by simp [hstep, hnow], by simp [hstep, hpid], by simp [hstep, hlen],
        Or.inr (Or.inl ⟨by simp [hstep, hl], by simp [hstep, hr], by simp [hstep, hs],
          by simp [hstep, hresp], by simp [hstep, hex], ?_, ?_⟩)⟩
      · rw [hstep]
        simpa using List.getElem?_set_eq_of_lt _ hlt0
      · intro j' ts' hj'
        rw [hstep] at hj'
        simp only at hj'
        rw [List.getElem?_set_ne (by omega)] at hj'
        exact hw j' ts' hj'
    · obtain ⟨hl, hr, hs, hresp, hex, ht0, hw⟩ := hB
      rw [hti] at ht0
      have hts := Option.some.inj ht0
      subst hts
      have hlt0 : 0 < st.tasks.length := (List.getElem?_eq_some.mp hti).1
      have hstep : stepTask st 0 = { st with
          responses := [],
          tasks := st.tasks.set 0 (.leadSetToken creds (lockKey brand provider) 0
            newTok eIn) } := by
        simp [stepTask, hti, hresp, truthyStr_some_true newTok hnt, setTask]
      refine ⟨by simp [hstep, hnow], by simp [hstep, hpid], by simp [hstep, hlen],
        Or.inr (Or.inr (Or.inl ⟨by simp [hstep, hl], by simp [hstep, hr],
          by simp [hstep, hs], by simp [hstep], by simp [hstep, hex], ?_, ?_⟩))⟩
      · rw [hstep]
        simpa using List.getElem?_set_eq_of_lt _ hlt0
      · intro j' ts' hj'
        rw [hstep] at hj'
        simp only at hj'
        rw [List.getElem?_set_ne (by omega)] at hj'
        exact hw j' ts' hj'
    · obtain ⟨hl, hr, hs, hresp, hex, ht0, hw⟩ := hC
      rw [hti] at ht0
      have hts := Option.some.inj ht0
      subst hts
      have hlt0 : 0 < st.tasks.length := (List.getElem?_eq_some.mp hti).1
      have hupsert : setGlobalInstagramFacebookToken (sampleStore g) newTok
          = sampleStore newTok := by
        simp [setGlobalInstagramFacebookToken, sampleStore]
      have hstep : stepTask st 0 = { st with
          locks := [], resolvedPids := [0], store := sampleStore newTok,
          tasks := st.tasks.set 0
            (.done (some (exchangeSuccessCreds creds newTok eIn now))) } := by
        simp [stepTask, hti, hs, hl, hr, hnow, finishTask, setTask, hupsert]
      refine ⟨by simp [hstep, hnow], by simp [hstep, hpid], by simp [hstep, hlen],
        Or.inr (Or.inr (Or.inr ⟨by simp [hstep], by simp [hstep], by simp [hstep],
          by simp [hstep, hresp], by simp [hstep, hex], ?_, ?_⟩))⟩
      · rw [hstep]
        simpa using List.getElem?_set_eq_of_lt _ hlt0
      · intro j' ts' hj'
        rw [hstep] at hj'
        simp only at hj'
        rw [List.getElem?_set_ne (by omega)] at hj'
        exact Or.inl (hw j' ts' hj')
    · obtain ⟨hl, hr, hs, hresp, hex, ht0, hw⟩ := hD
      rw [hti] at ht0
      have hts := Option.some.inj ht0
      subst hts
      rw [stepTask_on_done st 0 _ hti]
      exact ⟨hnow, hpid, hlen, Or.inr (Or.inr (Or.inr ⟨hl, hr, hs, hresp, hex,
        hti, hw⟩))⟩
  · -- a follower takes a step
    have hltj : j + 1 < st.tasks.length := (List.getElem?_eq_some.mp hti).1
    rcases hphase with hA | hB | hC | hD
    · obtain ⟨hl, hr, hs, hresp, hex, ht0, hw⟩ := hA
      have hts := hw j ts hti
      subst hts
      rw [show stepTask st (j + 1) = st from by simp [stepTask, hti, hr]]
      exact ⟨hnow, hpid, hlen, Or.inl ⟨hl, hr, hs, hresp, hex, ht0, hw⟩⟩
    · obtain ⟨hl, hr, hs, hresp, hex, ht0, hw⟩ := hB
      have hts := hw j ts hti
      subst hts
      rw [show stepTask st (j + 1) = st from by simp [stepTask, hti, hr]]
      exact ⟨hnow, hpid, hlen, Or.inr (Or.inl ⟨hl, hr, hs, hresp, hex, ht0, hw⟩)⟩
    · obtain ⟨hl, hr, hs, hresp, hex, ht0, hw⟩ := hC
      have hts := hw j ts hti
      subst hts
      rw [show stepTask st (j + 1) = st from by simp [stepTask, hti, hr]]
      exact ⟨hnow, hpid, hlen, Or.inr (Or.inr (Or.inl ⟨hl, hr, hs, hresp, hex,
        ht0, hw⟩))⟩
    · obtain ⟨hl, hr, hs, hresp, hex, ht0, hw⟩ := hD
      rcases hw j ts hti with h1 | h2 | h3
      · subst h1
        have hstep : stepTask st (j + 1)
            = setTask st (j + 1) (.waitReadToken creds) := by
          simp [stepTask, hti, hr]
        refine ⟨by simp [hstep, setTask, hnow], by simp [hstep, setTask, hpid],
          by simp [hstep, setTask, hlen],
          Or.inr (Or.inr (Or.inr ⟨by simp [hstep, setTask, hl],
            by simp [hstep, setTask, hr], by simp [hstep, setTask, hs],
            by simp [hstep, setTask, hresp], by simp [hstep, setTask, hex], ?_, ?_⟩))⟩
        · rw [hstep]
          simp only [setTask]
          rw [List.getElem?_set_ne (by omega)]
          exact ht0
        · intro j' ts' hj'
          rw [hstep] at hj'
          simp only [setTask] at hj'
          by_cases hjj : j' = j
          · subst hjj
            rw [List.getElem?_set_eq_of_lt _ hltj] at hj'
            exact Or.inr (Or.inl (Option.some.inj hj').symm)
          · rw [List.getElem?_set_ne (by omega)] at hj'
            exact hw j' ts' hj'
      · subst h2
        have hstep : stepTask st (j + 1) = setTask st (j + 1)
            (.done (some { creds with access_token := some newTok })) := by
          simp [stepTask, hti, hs, getGlobalInstagramFacebookToken, sampleStore,
            stampToken_truthy creds newTok hnt]
        refine ⟨by simp [hstep, setTask, hnow], by simp [hstep, setTask, hpid],
          by simp [hstep, setTask, hlen],
          Or.inr (Or.inr (Or.inr ⟨by simp [hstep, setTask, hl],
            by simp [hstep, setTask, hr], by simp [hstep, setTask, hs],
            by simp [hstep, setTask, hresp], by simp [hstep, setTask, hex], ?_, ?_⟩))⟩
        · rw [hstep]
          simp only [setTask]
          rw [List.getElem?_set_ne (by omega)]
          exact ht0
        · intro j' ts' hj'
          rw [hstep] at hj'
          simp only [setTask] at hj'
          by_cases hjj : j' = j
          · subst hjj
            rw [List.getElem?_set_eq_of_lt _ hltj] at hj'
            exact Or.inr (Or.inr (Option.some.inj hj').symm)
          · rw [List.getElem?_set_ne (by omega)] at hj'
            exact hw j' ts' hj'
      · rw [stepTask_on_done st (j + 1) _ (by rw [hti, h3])]
        exact ⟨hnow, hpid, hlen, Or.inr (Or.inr (Or.inr ⟨hl, hr, hs, hresp, hex,
          ht0, hw⟩))⟩

theorem c1Inv_runSched (brand : Brand) (provider : String) (creds : Creds)
    (g newTok : String) (eIn : Option Nat) (now : Nat) (m : Nat)
    (hgt : g ≠ "") (hnt : newTok ≠ "") (st : MachineState)
    (h : c1Inv brand provider creds g newTok eIn now m st) (rest : List Nat) :
    c1Inv brand provider creds g newTok eIn now m (runSched st rest) := by
  induction rest generalizing st with
  | nil => exact h
  | cons a l ih =>
    exact ih _ (c1Inv_step brand provider creds g newTok eIn now m hgt hnt st h a)

theorem c1Inv_exchange_bound (brand : Brand) (provider : String) (creds : Creds)
    (g newTok : String) (eIn : Option Nat) (now : Nat) (m : Nat) (st : MachineState)
    (h : c1Inv brand provider creds g newTok eIn now m st) :
    st.exchangeCount ≤ 1 := by
  obtain ⟨-, -, -, hphase⟩ := h
  rcases hphase with hA | hB | hC | hD
  · rw [hA.2.2.2.2.1]; omega
  · rw [hB.2.2.2.2.1]
  · rw [hC.2.2.2.2.1]
  · rw [hD.2.2.2.2.1]

theorem c1Inv_done_token (brand : Brand) (provider : String) (creds : Creds)
    (g newTok : String) (eIn : Option Nat) (now : Nat) (m : Nat) (st : MachineState)
    (h : c1Inv brand provider creds g newTok eIn now m st) :
    ∀ (j : Nat) (r : Option Creds), st.tasks[j]? = some (TaskState.done r) →
      ∃ c, r = some c ∧ c.access_token = some newTok := by
  obtain ⟨-, -, -, hphase⟩ := h
  intro j r hj
  rcases j with _ | j'
  · rcases hphase with hA | hB | hC | hD
    · rw [hA.2.2.2.2.2.1] at hj
      exact absurd (Option.some.inj hj) (by simp)
    · rw [hB.2.2.2.2.2.1] at hj
      exact absurd (Option.some.inj hj) (by simp)
    · rw [hC.2.2.2.2.2.1] at hj
      exact absurd (Option.some.inj hj) (by simp)
    · rw [hD.2.2.2.2.2.1] at hj
      refine ⟨exchangeSuccessCreds creds newTok eIn now, ?_,
        exchangeSuccessCreds_access_token creds newTok eIn now⟩
      have := Option.some.inj hj
      injection this.symm
  · rcases hphase with hA | hB | hC | hD
    · have := hA.2.2.2.2.2.2 j' _ hj
      exact absurd this (by simp)
    · have := hB.2.2.2.2.2.2 j' _ hj
      exact absurd this (by simp)
    · have := hC.2.2.2.2.2.2 j' _ hj
      exact absurd this (by simp)
    · rcases hD.2.2.2.2.2.2 j' _ hj with h1 | h2 | h3
      · exact absurd h1 (by simp)
      · exact absurd h2 (by simp)
      · refine ⟨{ creds with access_token := some newTok }, ?_, rfl⟩
        injection h3

theorem c1_leader_run (brand : Brand) (provider : String) (creds : Creds)
    (g newTok : String) (eIn : Option Nat) (now : Nat) (m : Nat)
    (hgt : g ≠ "") (hnt : newTok ≠ "") :
    runSched
      { locks := [(lockKey brand provider, 0)], resolvedPids := [], nextPid := 1,
        store := sampleStore g, responses := [.success (some newTok) eIn],
        exchangeCount := 0, now := now,
        tasks := .leadReadToken creds (lockKey brand provider) 0
            ((credsAppId creds).getD "") ((credsAppSecret creds).getD "")
          :: List.replicate m (.waitLock 0 creds) } [0, 0, 0]
      = { locks := [], resolvedPids := [0], nextPid := 1,
          store := sampleStore newTok, responses := [], exchangeCount := 1,
          now := now,
          tasks := .done (some (exchangeSuccessCreds creds newTok eIn now))
            :: List.replicate m (.waitLock 0 creds) } := by
  simp [runSched, stepTask, setTask, finishTask, getGlobalInstagramFacebookToken,
    sampleStore, setGlobalInstagramFacebookToken, truthyStr_some_true g hgt,
    truthyStr_some_true newTok hnt]

theorem c1_waiter_run (creds : Creds) (newTok : String) (eIn : Option Nat)
    (now : Nat) (m : Nat) (hnt : newTok ≠ "") :
    ∀ k, k ≤ m →
    runSched
      { locks := [], resolvedPids := [0], nextPid := 1,
        store := sampleStore newTok, responses := [], exchangeCount := 1,
        now := now,
        tasks := .done (some (exchangeSuccessCreds creds newTok eIn now))
          :: List.replicate m (.waitLock 0 creds) } (waiterSched k)
      = { locks := [], resolvedPids := [0], nextPid := 1,
          store := sampleStore newTok, responses := [], exchangeCount := 1,
          now := now,
          tasks := .done (some (exchangeSuccessCreds creds newTok eIn now))
            :: (List.replicate k
                  (.done (some { creds with access_token := some newTok }))
              ++ List.replicate (m - k) (.waitLock 0 creds)) } := by
  intro k
  induction k with
  | zero =>
    intro _
    simp [waiterSched, runSched]
  | succ k ih =>
    intro hk
    have hkm : k ≤ m := Nat.le_of_succ_le hk
    have hsub : m - k = (m - (k + 1)) + 1 := by omega
    rw [waiterSched, runSched_append, ih hkm, hsub, List.replicate_succ]
    have h1 : (TaskState.done (some (exchangeSuccessCreds creds newTok eIn now))
        :: (List.replicate k
              (TaskState.done (some { creds with access_token := some newTok }))
          ++ TaskState.waitLock 0 creds
            :: List.replicate (m - (k + 1)) (TaskState.waitLock 0 creds)))[k + 1]?
        = some (TaskState.waitLock 0 creds) := by
      rw [List.getElem?_cons_succ, List.getElem?_append_right (by simp)]
      simp
    have hset1 : (List.replicate k
            (TaskState.done (some { creds with access_token := some newTok }))
          ++ TaskState.waitLock 0 creds
            :: List.replicate (m - (k + 1)) (TaskState.waitLock 0 creds)).set k
          (TaskState.waitReadToken creds)
        = List.replicate k
            (TaskState.done (some { creds with access_token := some newTok }))
          ++ TaskState.waitReadToken creds
            :: List.replicate (m - (k + 1)) (TaskState.waitLock 0 creds) := by
      have hs := set_append_cons_length
        (List.replicate k
          (TaskState.done (some { creds with access_token := some newTok })))
        (TaskState.waitLock 0 creds) (TaskState.waitReadToken creds)
        (List.replicate (m - (k + 1)) (TaskState.waitLock 0 creds))
      rw [List.length_replicate] at hs
      exact hs
    have h2 : (TaskState.done (some (exchangeSuccessCreds creds newTok eIn now))
        :: (List.replicate k
              (TaskState.done (some { creds with access_token := some newTok }))
          ++ TaskState.waitReadToken creds
            :: List.replicate (m - (k + 1)) (TaskState.waitLock 0 creds)))[k + 1]?
        = some (TaskState.waitReadToken creds) := by
      rw [List.getElem?_cons_succ, List.getElem?_append_right (by simp)]
      simp
    have hset2 : (List.replicate k
            (TaskState.done (some { creds with access_token := some newTok }))
          ++ TaskState.waitReadToken creds
            :: List.replicate (m - (k + 1)) (TaskState.waitLock 0 creds)).set k
          (TaskState.done (some { creds with access_token := some newTok }))
        = List.replicate (k + 1)
            (TaskState.done (some { creds with access_token := some newTok }))
          ++ List.replicate (m - (k + 1)) (TaskState.waitLock 0 creds) := by
      have hs := set_append_cons_length
        (List.replicate k
          (TaskState.done (some { creds with access_token := some newTok })))
        (TaskState.waitReadToken creds)
        (TaskState.done (some { creds with access_token := some newTok }))
        (List.replicate (m - (k + 1)) (TaskState.waitLock 0 creds))
      rw [List.length_replicate] at hs
      rw [hs, List.replicate_succ', List.append_assoc]
      rfl
    simp [runSched, stepTask, h1, h2, setTask, List.set_cons_succ, hset1, hset2,
      getGlobalInstagramFacebookToken, sampleStore,
      stampToken_truthy creds newTok hnt]

/-- C1: `m + 1` concurrent `refreshBrandToken` calls for the same
`(brandId, provider)` key — issued in one synchronous turn, so their entry
segments (`List.range (m + 1)`) run before any call resumes from an await,
then interleaved arbitrarily (`rest`) — issue at most one token-exchange
network call; no caller ever returns null, every completed caller holds a
credentials object whose `access_token` is the exchanged token, and a
schedule exists under which every caller completes that way. -/
theorem refreshBrandToken_mutual_exclusion (brand : Brand) (provider : String)
    (creds : Creds) (g newTok : String) (eIn : Option Nat) (now : Nat) (m : Nat)
    (hbc : brandCreds brand provider = some creds)
    (hb : (truthyStr (credsAppId creds) && truthyStr (credsAppSecret creds)) = true)
    (hgt : g ≠ "") (hnt : newTok ≠ "") :
    (∀ rest : List Nat,
      (runSched (initState (sampleStore g) [.success (some newTok) eIn] now
          (List.replicate (m + 1) (.entry brand provider)))
        (List.range (m + 1) ++ rest)).exchangeCount ≤ 1 ∧
      (∀ (j : Nat) (r : Option Creds),
        (runSched (initState (sampleStore g) [.success (some newTok) eIn] now
            (List.replicate (m + 1) (.entry brand provider)))
          (List.range (m + 1) ++ rest)).tasks[j]? = some (TaskState.done r) →
        ∃ c, r = some c ∧ c.access_token = some newTok)) ∧
    (∃ rest : List Nat, ∀ j, j ≤ m →
      ∃ c, (runSched (initState (sampleStore g) [.success (some newTok) eIn] now
          (List.replicate (m + 1) (.entry brand provider)))
        (List.range (m + 1) ++ rest)).tasks[j]? = some (TaskState.done (some c)) ∧
        c.access_token = some newTok) := by
  constructor
  · intro rest
    rw [runSched_append, c1_issue_full brand provider creds g newTok eIn now m hbc hb]
    have hinv := c1Inv_runSched brand provider creds g newTok eIn now m hgt hnt _
      (c1Inv_after_issue brand provider creds g newTok eIn now m) rest
    exact ⟨c1Inv_exchange_bound brand provider creds g newTok eIn now m _ hinv,
      c1Inv_done_token brand provider creds g newTok eIn now m _ hinv⟩
  · refine ⟨[0, 0, 0] ++ waiterSched m, ?_⟩
    rw [runSched_append, runSched_append,
      c1_issue_full brand provider creds g newTok eIn now m hbc hb,
      c1_leader_run brand provider creds g newTok eIn now m hgt hnt,
      c1_waiter_run creds newTok eIn now m hnt m le_rfl]
    intro j hj
    rcases j with _ | j'
    · exact ⟨exchangeSuccessCreds creds newTok eIn now, by simp,
        exchangeSuccessCreds_access_token creds newTok eIn now⟩
    · refine ⟨{ creds with access_token := some newTok }, ?_, rfl⟩
      have hj' : j' < m := hj
      rw [List.getElem?_cons_succ, List.getElem?_append_left (by simp [hj']),
        List.getElem?_replicate]
      simp [hj']

/-- Closed instance of `refreshBrandToken_mutual_exclusion`: three concurrent
calls at the sample brand, global token `global-old`, exchange response
`{ access_token: "global-new", expires_in: 3600 }`. -/
theorem refreshBrandToken_mutual_exclusion_witness :
    (brandCreds sampleBrand "instagram" = some sampleCreds ∧
      (truthyStr (credsAppId sampleCreds) && truthyStr (credsAppSecret sampleCreds)) = true ∧
      ("global-old" : String) ≠ "" ∧ ("global-new" : String) ≠ "") ∧
    ((∀ rest : List Nat,
      (runSched (initState (sampleStore "global-old")
          [.success (some "global-new") (some 3600)] 1700000000000
          (List.replicate (2 + 1) (.entry sampleBrand "instagram")))
        (List.range (2 + 1) ++ rest)).exchangeCount ≤ 1 ∧
      (∀ (j : Nat) (r : Option Creds),
        (runSched (initState (sampleStore "global-old")
            [.success (some "global-new") (some 3600)] 1700000000000
            (List.replicate (2 + 1) (.entry sampleBrand "instagram")))
          (List.range (2 + 1) ++ rest)).tasks[j]? = some (TaskState.done r) →
        ∃ c, r = some c ∧ c.access_token = some "global-new")) ∧
    (∃ rest : List Nat, ∀ j, j ≤ 2 →
      ∃ c, (runSched (initState (sampleStore "global-old")
          [.success (some "global-new") (some 3600)] 1700000000000
          (List.replicate (2 + 1) (.entry sampleBrand "instagram")))
        (List.range (2 + 1) ++ rest)).tasks[j]? = some (TaskState.done (some c)) ∧
        c.access_token = some "global-new")) :=
  ⟨⟨by decide, by decide, by decide, by decide⟩,
    refreshBrandToken_mutual_exclusion sampleBrand "instagram" sampleCreds
      "global-old" "global-new" (some 3600) 1700000000000 2
      (by decide) (by decide) (by decide) (by decide)⟩
